import Mathlib

/-!
Shallow embedding of `etl_bank_project.py`, a four-stage ETL batch job
(extract → transform → load → report) over a table of the largest banks.

Modelling conventions:
* a pandas DataFrame is a `List BankRow`; pandas `NaN` cells are `none`;
  a column that does not exist yet in the frame (the three converted
  columns before `transform` runs) is modelled as the column being
  all-`none`;
* decimal values are `ℚ` (the floats of the program, modelled exactly);
* each external effect (HTTP fetch + HTML parse, `pd.read_csv`,
  `pd.read_html`, file writes, `sqlite3.connect`, log read) is an input of
  the stage function: `Except String α` when the call can raise, `Bool`
  when only success/failure matters.  A stage is written as a fallible
  body (its `try` block, in `Except String`) plus the translation of its
  `except Exception` clause.
-/

namespace ETLBank

/-- One row of the bank DataFrame.  After `extract` only `Name` and
`MC_USD_Billion` are populated (the other three columns do not exist yet
and are all-`none`); `transform` fills the converted columns. -/
structure BankRow where
  Name : String
  MC_USD_Billion : Option ℚ
  MC_GBP_Billion : Option ℚ
  MC_EUR_Billion : Option ℚ
  MC_INR_Billion : Option ℚ
deriving DecidableEq, Repr

/-- A DataFrame of bank rows, in extraction order. -/
abbrev Dataset := List BankRow

/-- The row shape produced by `extract`: only the name and the cleaned
USD market-cap column; the converted columns do not exist yet. -/
def mkExtractRow (name : String) (usd : Option ℚ) : BankRow :=
  { Name := name, MC_USD_Billion := usd,
    MC_GBP_Billion := none, MC_EUR_Billion := none, MC_INR_Billion := none }

/-! ### Rounding

`Series.round(2)` in pandas/numpy rounds half to even; SQLite `ROUND`
rounds half away from zero.  Both are modelled exactly on `ℚ`. -/

/-- Round half to even to an integer (numpy/pandas rounding). -/
def roundHalfEven (q : ℚ) : ℤ :=
  if q - ⌊q⌋ = 1 / 2 then (if ⌊q⌋ % 2 = 0 then ⌊q⌋ else ⌊q⌋ + 1) else round q

/-- pandas `.round(2)`: round half to even at two decimal places. -/
def pdRound2 (q : ℚ) : ℚ := (roundHalfEven (q * 100) : ℚ) / 100

/-- SQLite `ROUND(x, 2)`: round half away from zero at two decimals. -/
def sqlRound2 (q : ℚ) : ℚ :=
  if 0 ≤ q then ((⌊q * 100 + 1 / 2⌋ : ℤ) : ℚ) / 100
  else -(((⌊-(q * 100) + 1 / 2⌋ : ℤ) : ℚ) / 100)

/-! ### Strings and numeric coercion -/

/-- Whether `needle` occurs at the start of `hay` (over char lists). -/
def charsStartWith : List Char → List Char → Bool
  | [], _ => true
  | _ :: _, [] => false
  | a :: as, b :: bs => a == b && charsStartWith as bs

/-- Whether `needle` occurs somewhere inside `hay` (over char lists). -/
def charsHaveSub (needle : List Char) : List Char → Bool
  | [] => needle.isEmpty
  | b :: bs => charsStartWith needle (b :: bs) || charsHaveSub needle bs

/-- Python `needle in hay` substring test on strings. -/
def strContains (hay needle : String) : Bool := charsHaveSub needle.data hay.data

/-- Value of a list of decimal digit characters. -/
def digitsToNat (cs : List Char) : ℕ :=
  cs.foldl (fun a c => a * 10 + (c.toNat - 48)) 0

/-- Split a char list at its first dot, keeping what follows (which, for
a valid literal, must then be dot-free digits). -/
def splitAtDot : List Char → List Char × Option (List Char)
  | [] => ([], none)
  | c :: cs =>
      if c == '.' then ([], some cs)
      else
        let r := splitAtDot cs
        (c :: r.1, r.2)

/-- Unsigned part of a decimal literal: digits with at most one dot and
at least one digit overall. -/
def parseUnsignedDec (cs : List Char) : Option ℚ :=
  match splitAtDot cs with
  | (ip, none) =>
      if !ip.isEmpty && ip.all Char.isDigit then some (digitsToNat ip) else none
  | (ip, some fp) =>
      if (!ip.isEmpty || !fp.isEmpty) && ip.all Char.isDigit && fp.all Char.isDigit then
        some ((digitsToNat ip : ℚ) + (digitsToNat fp : ℚ) / (10 : ℚ) ^ fp.length)
      else none

/-- Models `pd.to_numeric(cell, errors='coerce')` on one cell: an
optionally signed decimal literal parses to its value, anything else
coerces to `NaN` (`none`). -/
def parseDec (s : String) : Option ℚ :=
  match s.data with
  | '-' :: rest => (parseUnsignedDec rest).map (fun q => -q)
  | '+' :: rest => parseUnsignedDec rest
  | cs => parseUnsignedDec cs

/-- Python `.str.replace(',', '')`: drop every comma of the string. -/
def stripCommas (s : String) : String := ⟨s.data.filter (fun c => c != ',')⟩

/-- The market-cap cell cleanup of `extract`: strip thousands separators,
then coerce to a number (`none` on coercion failure). -/
def cleanMC (s : String) : Option ℚ := parseDec (stripCommas s)

/-! ### Extract -/

instance {ε α : Type _} [DecidableEq ε] [DecidableEq α] : DecidableEq (Except ε α) := fun a b =>
  match a, b with
  | .error x, .error y => decidable_of_iff (x = y) (by simp)
  | .error _, .ok _ => .isFalse (by simp)
  | .ok _, .error _ => .isFalse (by simp)
  | .ok x, .ok y => decidable_of_iff (x = y) (by simp)

/-- One `class="wikitable"` table of the fetched page, as `extract` sees
it: the texts of its `<th>` header cells, and the outcome of
`pd.read_html` + selection/renaming of the two columns on it (modelled as
an opaque fallible parse producing (bank name, raw market-cap string)
pairs; `.error` = that processing raised). -/
structure WikiTable where
  headers : List String
  parsed : Except String (List (String × String))
deriving DecidableEq, Repr

/-- The header test of the table-search loop: a `<th>` whose text is
non-empty and contains the substring "Market cap". -/
def isTargetTable (t : WikiTable) : Bool :=
  t.headers.any (fun h => !(h == "") && strContains h "Market cap")

/-- The nested search loop of `extract`: the first wiki-style table in
document order with a matching header cell. -/
def findTargetTable (tables : List WikiTable) : Option WikiTable :=
  tables.find? isTargetTable

/-- The `try` block of `extract`.  `fetch` is the combined outcome of
`requests.get`, `BeautifulSoup` and `find_all('table', class 'wikitable')`
(`.error` = one of them raised).  Returning `.ok none` is the normal
"table not found" path; `.error` is a raised exception. -/
def extractBody (fetch : Except String (List WikiTable)) :
    Except String (Option Dataset) :=
  match fetch with
  | .error e => .error e
  | .ok tables =>
      match findTargetTable tables with
      | some t =>
          match t.parsed with
          | .error e => .error e
          | .ok rows => .ok (some (rows.map (fun p => mkExtractRow p.1 (cleanMC p.2))))
      | none => .ok none

/-- Stage `extract()`: the body wrapped in its `except Exception` clause, which
logs and returns `None`. -/
def extract (fetch : Except String (List WikiTable)) : Option Dataset :=
  match extractBody fetch with
  | .ok v => v
  | .error _ => none

/-! ### Transform -/

/-- The rows of `exchange_rate.csv` as (Currency, Rate) pairs. -/
abbrev RateRows := List (String × ℚ)

/-- Lookup in `dict(zip(currencies, rates))`: the last binding of a key
wins. -/
def dictGet (rows : RateRows) (k : String) : Option ℚ :=
  (rows.reverse.find? (fun p => p.1 == k)).map Prod.snd

/-- Python `required_currencies.issubset(set(exchange_rates_df['Currency']))`
for `required_currencies = {EUR, GBP, INR}`. -/
def hasRequiredCurrencies (rows : RateRows) : Bool :=
  ["EUR", "GBP", "INR"].all (fun c => rows.any (fun p => p.1 == c))

/-- The three column assignments of `transform` on one row: each
converted cell is `round(usd * rate, 2)`, `NaN` (`none`) when the USD
cell is `NaN`. -/
def enrichRow (g e i : ℚ) (r : BankRow) : BankRow :=
  { r with
    MC_GBP_Billion := r.MC_USD_Billion.map (fun u => pdRound2 (u * g)),
    MC_EUR_Billion := r.MC_USD_Billion.map (fun u => pdRound2 (u * e)),
    MC_INR_Billion := r.MC_USD_Billion.map (fun u => pdRound2 (u * i)) }

/-- The inner `try` block of `transform` on a present DataFrame `d`.
`ratesSrc` is the outcome of `pd.read_csv(EXCHANGE_RATES_CSV)` together
with its 'Currency'/'Rate' column accesses (`.error` = raised).  The
result pair is (value of the caller's DataFrame after the call, returned
value): column assignment mutates the input in place, so on success both
components are the same enriched frame. -/
def transformInner (d : Dataset) (ratesSrc : Except String RateRows) :
    Except String (Option Dataset × Option Dataset) :=
  match ratesSrc with
  | .error e => .error e
  | .ok rows =>
      if hasRequiredCurrencies rows then
        match dictGet rows "GBP", dictGet rows "EUR", dictGet rows "INR" with
        | some g, some e, some i =>
            let d' := d.map (enrichRow g e i)
            .ok (some d', some d')
        | _, _, _ => .error "KeyError"
      else
        .ok (some d, none)

/-- Stage `transform(df)`: `None` short-circuit, then the inner body wrapped in
its `except` clauses (any raise logs and returns `None`, leaving the
input frame untouched).  First component: the caller's DataFrame after
the call; second: the return value. -/
def transform (df : Option Dataset) (ratesSrc : Except String RateRows) :
    Option Dataset × Option Dataset :=
  match df with
  | none => (none, none)
  | some d =>
      match transformInner d ratesSrc with
      | .ok r => r
      | .error _ => (some d, none)

/-! ### Loaders -/

/-- The `try` block of `load_to_csv`.  `write` is the outcome of
`df.to_csv(CSV_OUTPUT_PATH, index=False)` (`.error` = an I/O exception). -/
def loadCsvBody (df : Option Dataset) (write : Dataset → Except String Unit) :
    Except String Bool :=
  match df with
  | none => .ok false
  | some d =>
      match write d with
      | .error e => .error e
      | .ok _ => .ok true

/-- Stage `load_to_csv(df)`: the body wrapped in its `except` clause (log and
return `False`). -/
def load_to_csv (df : Option Dataset) (write : Dataset → Except String Unit) : Bool :=
  match loadCsvBody df write with
  | .ok b => b
  | .error _ => false

/-- The relational store `Banks.db`: its single table `Largest_banks`
(`none` = the table does not exist). -/
structure DBState where
  largestBanks : Option Dataset
deriving DecidableEq, Repr

/-- The `try` block of `load_to_db`.  `connOk` is whether
`sqlite3.connect` succeeds, `writeOk` whether
`df.to_sql('Largest_banks', conn, if_exists='replace', index=False)`
succeeds; on success the table is dropped and recreated with exactly the
frame's rows.  (The table state left behind by a failed replace is not
modelled more finely; no claim depends on it.) -/
def loadDbBody (df : Option Dataset) (connOk writeOk : Bool) (db : DBState) :
    Except String (DBState × Bool) :=
  match df with
  | none => .ok (db, false)
  | some d =>
      if connOk then
        if writeOk then .ok ({ largestBanks := some d }, true)
        else .error "to_sql failed"
      else .error "unable to open database file"

/-- Stage `load_to_db(df)`: the body wrapped in its `except` clause (log and
return `False`). -/
def load_to_db (df : Option Dataset) (connOk writeOk : Bool) (db : DBState) :
    DBState × Bool :=
  match loadDbBody df connOk writeOk db with
  | .ok r => r
  | .error _ => (db, false)

/-! ### Reporter (run_queries)

SQL aggregate semantics over a column: `NULL` cells are ignored; on an
empty (or all-`NULL`) column the aggregates are `NULL`; division by zero
yields `NULL` in SQLite. -/

/-- SQL `AVG` over the non-NULL values of a column. -/
def sqlAvg (l : List ℚ) : Option ℚ :=
  if l.isEmpty then none else some (l.sum / l.length)

/-- SQL `MAX` over the non-NULL values of a column. -/
def sqlMax (l : List ℚ) : Option ℚ := l.max?

/-- SQL `MIN` over the non-NULL values of a column. -/
def sqlMin (l : List ℚ) : Option ℚ := l.min?

/-- SQLite division: `x / 0` is `NULL`. -/
def sqlDiv (a b : ℚ) : Option ℚ := if b = 0 then none else some (a / b)

/-- The non-NULL values of the `MC_EUR_Billion` column. -/
def eurColumn (rows : Dataset) : List ℚ :=
  rows.filterMap (fun r => r.MC_EUR_Billion)

/-- The single result row of query 1 (`Market Cap Analysis`). -/
structure Query1Row where
  Average_MC_EUR : Option ℚ
  Max_MC_EUR : Option ℚ
  Min_MC_EUR : Option ℚ
  Max_to_Min_Ratio : Option ℚ
deriving DecidableEq, Repr

/-- Query 1: `ROUND(AVG(MC_EUR_Billion), 2)`, `ROUND(MAX(..), 2)`,
`ROUND(MIN(..), 2)`, `ROUND(MAX(..) / MIN(..), 2)` over
`Largest_banks`. -/
def query1 (rows : Dataset) : Query1Row :=
  let l := eurColumn rows
  { Average_MC_EUR := (sqlAvg l).map sqlRound2,
    Max_MC_EUR := (sqlMax l).map sqlRound2,
    Min_MC_EUR := (sqlMin l).map sqlRound2,
    Max_to_Min_Ratio :=
      match sqlMax l, sqlMin l with
      | some mx, some mn => (sqlDiv mx mn).map sqlRound2
      | _, _ => none }

/-- The single result row of query 2 (`Average by Currency`). -/
structure Query2Row where
  Avg_EUR : Option ℚ
  Avg_USD : Option ℚ
  Avg_GBP : Option ℚ
  Avg_INR : Option ℚ
deriving DecidableEq, Repr

/-- Query 2: the rounded `AVG` of each of the four market-cap columns. -/
def query2 (rows : Dataset) : Query2Row :=
  { Avg_EUR := (sqlAvg (rows.filterMap (fun r => r.MC_EUR_Billion))).map sqlRound2,
    Avg_USD := (sqlAvg (rows.filterMap (fun r => r.MC_USD_Billion))).map sqlRound2,
    Avg_GBP := (sqlAvg (rows.filterMap (fun r => r.MC_GBP_Billion))).map sqlRound2,
    Avg_INR := (sqlAvg (rows.filterMap (fun r => r.MC_INR_Billion))).map sqlRound2 }

/-- SQLite `ORDER BY x DESC` comparison on a nullable column: `NULL`
 sorts below every value, so it comes last in descending order. -/
def optLeQ : Option ℚ → Option ℚ → Bool
  | none, _ => true
  | some _, none => false
  | some x, some y => decide (x ≤ y)

/-- Query 3 (`Bank Size Comparison`): per row the name, the EUR market
cap, and `ROUND(MC_EUR_Billion / max_mc * 100, 2)`, ordered descending by
EUR market cap. -/
def query3 (rows : Dataset) : List (String × Option ℚ × Option ℚ) :=
  let mx := sqlMax (eurColumn rows)
  (rows.map (fun r =>
    (r.Name, r.MC_EUR_Billion,
      match r.MC_EUR_Billion, mx with
      | some v, some m => (sqlDiv v m).map (fun q => sqlRound2 (q * 100))
      | _, _ => none))).mergeSort (fun a b => optLeQ b.2.1 a.2.1)

/-- The dict returned by `run_queries`, keys 'Market Cap Analysis',
'Average by Currency', 'Bank Size Comparison'. -/
structure QueryResults where
  marketCapAnalysis : Query1Row
  averageByCurrency : Query2Row
  bankSizeComparison : List (String × Option ℚ × Option ℚ)
deriving DecidableEq, Repr

/-- The `try` block of `run_queries`: connect, then run the three
queries with `pd.read_sql_query` (which raises when the table does not
exist). -/
def runQueriesBody (connOk : Bool) (db : DBState) : Except String QueryResults :=
  if connOk then
    match db.largestBanks with
    | none => .error "no such table: Largest_banks"
    | some rows =>
        .ok { marketCapAnalysis := query1 rows,
              averageByCurrency := query2 rows,
              bankSizeComparison := query3 rows }
  else .error "unable to open database file"

/-- Stage `run_queries()`: the body wrapped in its `except` clause (log and
return `None`). -/
def run_queries (connOk : Bool) (db : DBState) : Option QueryResults :=
  match runQueriesBody connOk db with
  | .ok r => some r
  | .error _ => none

/-! ### Log verifier -/

/-- The `try` block of `verify_logs`: read `code_log.txt` back
(`.error` = the open/read raised). -/
def verifyLogsBody (readLog : Except String String) : Except String Bool :=
  match readLog with
  | .error e => .error e
  | .ok _ => .ok true

/-- Stage `verify_logs()`: the body wrapped in its `except` clause (print the
error and return `False`). -/
def verify_logs (readLog : Except String String) : Bool :=
  match verifyLogsBody readLog with
  | .ok b => b
  | .error _ => false

/-! ### Entry point -/

/-- The stage functions `main` can invoke, in the order they appear in
the source file. -/
inductive Stage where
  | extractStage
  | transformStage
  | loadCsvStage
  | loadDbStage
  | queriesStage
  | verifyStage
deriving DecidableEq, Repr

/-- One run's worth of external-world outcomes, fixed up front so that a
whole pipeline run is a pure function of them. -/
structure MainInputs where
  fetch : Except String (List WikiTable)
  ratesSrc : Except String RateRows
  dbConnOk : Bool
  dbWriteOk : Bool
  queryConnOk : Bool
  logRead : Except String String
  db0 : DBState

/-- The sequence of stage functions `main()` invokes, following its
control flow: extract; if a frame came back, transform; if that
succeeded, `load_to_db`, then `run_queries` only when the DB load
reported success, then `verify_logs`. -/
def mainStages (inp : MainInputs) : List Stage :=
  Stage.extractStage ::
    match extract inp.fetch with
    | none => []
    | some d =>
        Stage.transformStage ::
          match (transform (some d) inp.ratesSrc).2 with
          | none => []
          | some dt =>
              Stage.loadDbStage ::
                ((if (load_to_db (some dt) inp.dbConnOk inp.dbWriteOk inp.db0).2 then
                    [Stage.queriesStage]
                  else []) ++ [Stage.verifyStage])

/-! ### Concrete fixtures used by witnesses and counterexamples -/

/-- The rate table of the spec's concrete scenario:
EUR 0.93, GBP 0.80, INR 82.1. -/
def exRates : RateRows := [("EUR", 93 / 100), ("GBP", 4 / 5), ("INR", 821 / 10)]

/-- The one-record dataset of the spec's concrete scenario. -/
def exBankA : BankRow := mkExtractRow "Bank A" (some 100)

/-- A row whose market-cap cell failed numeric coercion. -/
def exBankBad : BankRow := mkExtractRow "Bad Bank" none

/-- A wiki-style table whose headers do not mention market cap. -/
def exTableOther : WikiTable :=
  { headers := ["Rank", "Country"], parsed := .ok [("x", "1")] }

/-- A wiki-style table with a matching "Market cap" header. -/
def exTableTarget : WikiTable :=
  { headers := ["Bank name", "Market cap (US$ billion)"],
    parsed := .ok [("Bank A", "100"), ("Bad Bank", "n/a")] }

/-- A run in which every external call succeeds. -/
def exInputs : MainInputs :=
  { fetch := .ok [exTableOther, exTableTarget],
    ratesSrc := .ok exRates,
    dbConnOk := true, dbWriteOk := true, queryConnOk := true,
    logRead := .ok "log", db0 := ⟨none⟩ }

/-! ### Helper lemmas -/

/-- Rounding half to even fixes integers. -/
theorem roundHalfEven_intCast (n : ℤ) : roundHalfEven (n : ℚ) = n := by
  simp [roundHalfEven]

/-- Evaluate `pdRound2` when the scaled value is an integer. -/
theorem pdRound2_int (q : ℚ) (n : ℤ) (h : q * 100 = (n : ℚ)) :
    pdRound2 q = (n : ℚ) / 100 := by
  rw [pdRound2, h, roundHalfEven_intCast]

/-- A key that occurs in the rate rows is found by the dict lookup. -/
theorem dictGet_isSome_of_any (rows : RateRows) (c : String)
    (h : rows.any (fun p => p.1 == c) = true) : ∃ q, dictGet rows c = some q := by
  rw [List.any_eq_true] at h
  obtain ⟨p, hp, hc⟩ := h
  have hrev : ∃ x ∈ rows.reverse, (fun p : String × ℚ => p.1 == c) x = true :=
    ⟨p, List.mem_reverse.mpr hp, hc⟩
  have hsome := List.find?_isSome.mpr hrev
  obtain ⟨x, hx⟩ := Option.isSome_iff_exists.mp hsome
  exact ⟨x.2, by simp [dictGet, hx]⟩

/-- When all three required currencies are present, `transform` succeeds
and both components of the result are the enriched frame. -/
theorem transform_ok_char (d : Dataset) (rows : RateRows)
    (hreq : hasRequiredCurrencies rows = true) :
    ∃ g e i, dictGet rows "GBP" = some g ∧ dictGet rows "EUR" = some e ∧
      dictGet rows "INR" = some i ∧
      transform (some d) (.ok rows) =
        (some (d.map (enrichRow g e i)), some (d.map (enrichRow g e i))) := by
  have hall := List.all_eq_true.mp hreq
  obtain ⟨e, he⟩ := dictGet_isSome_of_any rows "EUR" (hall "EUR" (by simp))
  obtain ⟨g, hg⟩ := dictGet_isSome_of_any rows "GBP" (hall "GBP" (by simp))
  obtain ⟨i, hi⟩ := dictGet_isSome_of_any rows "INR" (hall "INR" (by simp))
  exact ⟨g, e, i, hg, he, hi, by simp [transform, transformInner, hreq, hg, he, hi]⟩

/-- Lemma: `List.find?` returns the first element satisfying the predicate. -/
theorem find?_first_spec {α : Type _} (p : α → Bool) (l : List α) (x : α)
    (h : l.find? p = some x) :
    p x = true ∧ ∃ n : ℕ, ∃ hn : n < l.length,
      l.get ⟨n, hn⟩ = x ∧
      ∀ m : ℕ, ∀ hm : m < l.length, m < n → p (l.get ⟨m, hm⟩) = false := by
  induction l with
  | nil => simp [List.find?] at h
  | cons a l ih =>
      by_cases hpa : p a = true
      · rw [List.find?_cons_of_pos _ hpa] at h
        cases h
        refine ⟨hpa, 0, by simp, rfl, ?_⟩
        intro m hm hlt
        omega
      · rw [List.find?_cons_of_neg _ hpa] at h
        obtain ⟨hx, n, hn, hget, hbefore⟩ := ih h
        refine ⟨hx, n + 1, by simpa using hn, by simpa using hget, ?_⟩
        intro m hm hlt
        cases m with
        | zero => simpa using hpa
        | succ k =>
            have := hbefore k (by simpa using hm) (by omega)
            simpa using this

instance : Std.Antisymm (fun x y : ℚ => x ≤ y) :=
  ⟨fun h h2 => le_antisymm h h2⟩

/-- Lemma: `List.max?` on `ℚ` returns a greatest element. -/
theorem qMax_spec (l : List ℚ) (a : ℚ) (h : l.max? = some a) :
    a ∈ l ∧ ∀ b ∈ l, b ≤ a :=
  (List.max?_eq_some_iff (fun x => le_refl x) (fun x y => max_choice x y)
    (fun _ _ _ => max_le_iff)).mp h

/-- Lemma: `List.min?` on `ℚ` returns a least element. -/
theorem qMin_spec (l : List ℚ) (a : ℚ) (h : l.min? = some a) :
    a ∈ l ∧ ∀ b ∈ l, a ≤ b :=
  (List.min?_eq_some_iff (fun x => le_refl x) (fun x y => min_choice x y)
    (fun _ _ _ => le_min_iff)).mp h

/-! ### Claim theorems -/

/-- C2 counterexample: `transform` does NOT leave its input Dataset
unchanged.  On the spec's own concrete scenario (one record, complete
rate table), the value the caller's DataFrame refers to after the call
differs from the extract-stage value: the three converted columns have
been assigned in place. -/
theorem transform_mutates_input_cex :
    (transform (some [exBankA]) (.ok exRates)).1 ≠ some [exBankA] := by
  simp +decide [transform, transformInner, exRates, exBankA, mkExtractRow, dictGet,
    hasRequiredCurrencies, enrichRow]

/-- C2 amended: `transform` mutates the Dataset it receives in place.
Whenever it succeeds, the caller's DataFrame afterwards IS the enriched
return value (same object); only on failure is the input left
untouched. -/
theorem transform_aliases_input (d : Dataset) (ratesSrc : Except String RateRows) :
    ((transform (some d) ratesSrc).2.isSome = true →
      (transform (some d) ratesSrc).1 = (transform (some d) ratesSrc).2)
  ∧ ((transform (some d) ratesSrc).2 = none →
      (transform (some d) ratesSrc).1 = some d) := by
  cases ratesSrc with
  | error e => simp [transform, transformInner]
  | ok rows =>
      by_cases hreq : hasRequiredCurrencies rows = true
      · obtain ⟨g, e, i, hg, he, hi, heq⟩ := transform_ok_char d rows hreq
        rw [heq]
        simp
      · have hreq2 : hasRequiredCurrencies rows = false := by simpa using hreq
        simp [transform, transformInner, hreq2]

/-- C2 amended, witness at the concrete scenario. -/
theorem transform_aliases_input_witness :
    (transform (some [exBankA]) (.ok exRates)).1 =
      (transform (some [exBankA]) (.ok exRates)).2 :=
  (transform_aliases_input [exBankA] (.ok exRates)).1 rfl

/-- C3: with all three required currencies present, every row of the
transformed output has each converted field equal to
`round(MC_USD_Billion * rate, 2)` (missing USD propagates); and on the
spec's concrete scenario the output record is
(EUR 93.0, GBP 80.0, INR 8210.0). -/
theorem transform_converts_each_row :
    (∀ (d : Dataset) (rows : RateRows) (g e i : ℚ),
        hasRequiredCurrencies rows = true →
        dictGet rows "GBP" = some g → dictGet rows "EUR" = some e →
        dictGet rows "INR" = some i →
        ∃ out, (transform (some d) (.ok rows)).2 = some out ∧
          ∀ r ∈ out,
            r.MC_EUR_Billion = r.MC_USD_Billion.map (fun u => pdRound2 (u * e)) ∧
            r.MC_GBP_Billion = r.MC_USD_Billion.map (fun u => pdRound2 (u * g)) ∧
            r.MC_INR_Billion = r.MC_USD_Billion.map (fun u => pdRound2 (u * i)))
  ∧ (transform (some [exBankA]) (.ok exRates)).2 =
      some [{ Name := "Bank A", MC_USD_Billion := some 100, MC_GBP_Billion := some 80,
              MC_EUR_Billion := some 93, MC_INR_Billion := some 8210 }] := by
  constructor
  · intro d rows g e i hreq hg he hi
    obtain ⟨g2, e2, i2, hg2, he2, hi2, heq⟩ := transform_ok_char d rows hreq
    obtain rfl : g = g2 := Option.some.inj (hg.symm.trans hg2)
    obtain rfl : e = e2 := Option.some.inj (he.symm.trans he2)
    obtain rfl : i = i2 := Option.some.inj (hi.symm.trans hi2)
    refine ⟨d.map (enrichRow g e i), by rw [heq], ?_⟩
    intro r hr
    obtain ⟨r0, _, rfl⟩ := List.mem_map.mp hr
    simp [enrichRow]
  · simp +decide [transform, transformInner, exRates, exBankA, mkExtractRow, dictGet,
      hasRequiredCurrencies, enrichRow]
    refine ⟨?_, ?_, ?_⟩
    · rw [pdRound2_int _ 8000 (by norm_num)]; norm_num
    · rw [pdRound2_int _ 9300 (by norm_num)]; norm_num
    · rw [pdRound2_int _ 821000 (by norm_num)]; norm_num

/-- C3 witness: the general part instantiated at the concrete
scenario. -/
theorem transform_converts_each_row_witness :
    ∃ out, (transform (some [exBankA]) (.ok exRates)).2 = some out ∧
      ∀ r ∈ out,
        r.MC_EUR_Billion = r.MC_USD_Billion.map (fun u => pdRound2 (u * (93 / 100))) ∧
        r.MC_GBP_Billion = r.MC_USD_Billion.map (fun u => pdRound2 (u * (4 / 5))) ∧
        r.MC_INR_Billion = r.MC_USD_Billion.map (fun u => pdRound2 (u * (821 / 10))) :=
  transform_converts_each_row.1 [exBankA] exRates (4 / 5) (93 / 100) (821 / 10)
    rfl rfl rfl rfl

/-- C4: when the rate source is readable but misses one of the required
currency codes, `transform` returns `None` and leaves the input frame
entirely unconverted. -/
theorem transform_absent_on_missing_currency (d : Dataset) (rows : RateRows) (c : String)
    (hc : c ∈ ["EUR", "GBP", "INR"]) (hmiss : ∀ p ∈ rows, p.1 ≠ c) :
    transform (some d) (.ok rows) = (some d, none) := by
  have hreq : hasRequiredCurrencies rows = false := by
    rw [Bool.eq_false_iff]
    intro hall
    rw [hasRequiredCurrencies, List.all_eq_true] at hall
    have hany := hall c hc
    rw [List.any_eq_true] at hany
    obtain ⟨p, hp, hpc⟩ := hany
    exact hmiss p hp (by simpa using hpc)
  simp [transform, transformInner, hreq]

/-- C4 witness: a rate file with EUR and GBP but no INR. -/
theorem transform_absent_on_missing_currency_witness :
    transform (some [exBankA]) (.ok [("EUR", 1), ("GBP", 1)]) = (some [exBankA], none) :=
  transform_absent_on_missing_currency [exBankA] [("EUR", 1), ("GBP", 1)] "INR"
    (by simp) (by decide)

/-- C10: a row whose USD market cap is missing survives `transform` in
place, with all three converted fields missing too: the output has the
same length and per-index names as the input, and an all-`none` converted
row wherever USD was `none`. -/
theorem transform_preserves_failed_rows (d : Dataset) (rows : RateRows) (out : Dataset)
    (h : (transform (some d) (.ok rows)).2 = some out) :
    out.length = d.length ∧
    ∀ k : ℕ, ∀ hk : k < d.length, ∀ hk2 : k < out.length,
      (out.get ⟨k, hk2⟩).Name = (d.get ⟨k, hk⟩).Name ∧
      ((d.get ⟨k, hk⟩).MC_USD_Billion = none →
        (out.get ⟨k, hk2⟩).MC_USD_Billion = none ∧
        (out.get ⟨k, hk2⟩).MC_GBP_Billion = none ∧
        (out.get ⟨k, hk2⟩).MC_EUR_Billion = none ∧
        (out.get ⟨k, hk2⟩).MC_INR_Billion = none) := by
  by_cases hreq : hasRequiredCurrencies rows = true
  · obtain ⟨g, e, i, hg, he, hi, heq⟩ := transform_ok_char d rows hreq
    rw [heq] at h
    obtain rfl : out = d.map (enrichRow g e i) := (Option.some.inj h).symm
    refine ⟨by simp, ?_⟩
    intro k hk hk2
    have hget : (d.map (enrichRow g e i)).get ⟨k, hk2⟩ = enrichRow g e i (d.get ⟨k, hk⟩) := by
      simp [List.getElem_map]
    rw [hget]
    constructor
    · simp [enrichRow]
    · intro husd
      simp only [List.get_eq_getElem] at husd
      simp [enrichRow, husd]
  · have hreq2 : hasRequiredCurrencies rows = false := by simpa using hreq
    rw [show (transform (some d) (.ok rows)).2 = none by
        simp [transform, transformInner, hreq2]] at h
    cases h

/-- C10 witness: the coercion-failed row survives with all conversions
missing. -/
theorem transform_preserves_failed_rows_witness :
    ([mkExtractRow "Bad Bank" none] : Dataset).length = ([exBankBad] : Dataset).length ∧
    ∀ k : ℕ, ∀ hk : k < ([exBankBad] : Dataset).length,
      ∀ hk2 : k < ([mkExtractRow "Bad Bank" none] : Dataset).length,
      (([mkExtractRow "Bad Bank" none] : Dataset).get ⟨k, hk2⟩).Name =
        (([exBankBad] : Dataset).get ⟨k, hk⟩).Name ∧
      ((([exBankBad] : Dataset).get ⟨k, hk⟩).MC_USD_Billion = none →
        (([mkExtractRow "Bad Bank" none] : Dataset).get ⟨k, hk2⟩).MC_USD_Billion = none ∧
        (([mkExtractRow "Bad Bank" none] : Dataset).get ⟨k, hk2⟩).MC_GBP_Billion = none ∧
        (([mkExtractRow "Bad Bank" none] : Dataset).get ⟨k, hk2⟩).MC_EUR_Billion = none ∧
        (([mkExtractRow "Bad Bank" none] : Dataset).get ⟨k, hk2⟩).MC_INR_Billion = none) :=
  transform_preserves_failed_rows [exBankBad] exRates [mkExtractRow "Bad Bank" none] rfl

/-- C5: the table-search loop selects the first wiki-style table in
document order having some header cell whose text contains "Market cap";
when no table matches, `extract` returns `None` through the normal
`.ok none` path, not by raising. -/
theorem extract_selects_first_market_cap_table (tables : List WikiTable) :
    (∀ t, findTargetTable tables = some t →
        isTargetTable t = true ∧
        ∃ n : ℕ, ∃ hn : n < tables.length,
          tables.get ⟨n, hn⟩ = t ∧
          ∀ m : ℕ, ∀ hm : m < tables.length, m < n →
            isTargetTable (tables.get ⟨m, hm⟩) = false)
  ∧ ((∀ t ∈ tables, isTargetTable t = false) →
      extractBody (.ok tables) = .ok none ∧ extract (.ok tables) = none) := by
  constructor
  · intro t ht
    exact find?_first_spec isTargetTable tables t ht
  · intro hnone
    have hfind : findTargetTable tables = none :=
      List.find?_eq_none.mpr (fun x hx => by simp [hnone x hx])
    exact ⟨by simp [extractBody, hfind], by simp [extract, extractBody, hfind]⟩

/-- C5 witness: among a non-matching table followed by a matching one,
the matching one is selected and everything before it fails the test. -/
theorem extract_selects_first_market_cap_table_witness :
    isTargetTable exTableTarget = true ∧
    ∃ n : ℕ, ∃ hn : n < [exTableOther, exTableTarget].length,
      [exTableOther, exTableTarget].get ⟨n, hn⟩ = exTableTarget ∧
      ∀ m : ℕ, ∀ hm : m < [exTableOther, exTableTarget].length, m < n →
        isTargetTable ([exTableOther, exTableTarget].get ⟨m, hm⟩) = false :=
  (extract_selects_first_market_cap_table [exTableOther, exTableTarget]).1
    exTableTarget rfl

/-- C6: the market-cap cleanup strips thousands separators before
numeric coercion ("1,234.5" becomes 1234.5); a cell that still fails
coercion becomes a missing value while extraction completes, producing
one output row per table row. -/
theorem extract_cleanup_and_row_tolerance :
    stripCommas "1,234.5" = "1234.5"
  ∧ cleanMC "1,234.5" = some (2469 / 2)
  ∧ cleanMC "n/a" = none
  ∧ (∀ tables t rows, findTargetTable tables = some t → t.parsed = .ok rows →
      ∃ ds : Dataset, extract (.ok tables) = some ds ∧ ds.length = rows.length ∧
        ∀ k : ℕ, ∀ hk : k < rows.length, ∀ hk2 : k < ds.length,
          ds.get ⟨k, hk2⟩ =
            mkExtractRow (rows.get ⟨k, hk⟩).1 (cleanMC (rows.get ⟨k, hk⟩).2)) := by
  refine ⟨by decide, ?_, by decide, ?_⟩
  · simp [cleanMC, stripCommas, parseDec, parseUnsignedDec, splitAtDot, digitsToNat]
    norm_num
  · intro tables t rows hfind hparsed
    refine ⟨rows.map (fun p => mkExtractRow p.1 (cleanMC p.2)), ?_, by simp, ?_⟩
    · simp [extract, extractBody, hfind, hparsed]
    · intro k hk hk2
      simp [List.getElem_map]

/-- C6 witness: a table with one well-formed and one non-numeric
market-cap cell extracts to two rows, the bad one with a missing value. -/
theorem extract_cleanup_and_row_tolerance_witness :
    ∃ ds : Dataset, extract (.ok [exTableOther, exTableTarget]) = some ds ∧
      ds.length = ([("Bank A", "100"), ("Bad Bank", "n/a")] : List (String × String)).length ∧
      ∀ k : ℕ, ∀ hk : k < ([("Bank A", "100"), ("Bad Bank", "n/a")] : List (String × String)).length,
        ∀ hk2 : k < ds.length,
        ds.get ⟨k, hk2⟩ =
          mkExtractRow (([("Bank A", "100"), ("Bad Bank", "n/a")] : List (String × String)).get ⟨k, hk⟩).1
            (cleanMC (([("Bank A", "100"), ("Bad Bank", "n/a")] : List (String × String)).get ⟨k, hk⟩).2) :=
  extract_cleanup_and_row_tolerance.2.2.2 [exTableOther, exTableTarget] exTableTarget
    [("Bank A", "100"), ("Bad Bank", "n/a")] rfl rfl

/-- C7: every stage's `except` clause converts any error of its body
into the stage's explicit failure result (`None` / `False`), so no
exception escapes a stage function to `main`; `transform` additionally
short-circuits an absent input. -/
theorem stages_signal_failure_not_raise :
    (∀ fetch e, extractBody fetch = .error e → extract fetch = none)
  ∧ (∀ src, transform none src = (none, none))
  ∧ (∀ d src e, transformInner d src = .error e → transform (some d) src = (some d, none))
  ∧ (∀ df w e, loadCsvBody df w = .error e → load_to_csv df w = false)
  ∧ (∀ df c wOk db e, loadDbBody df c wOk db = .error e → load_to_db df c wOk db = (db, false))
  ∧ (∀ c db e, runQueriesBody c db = .error e → run_queries c db = none)
  ∧ (∀ r e, verifyLogsBody r = .error e → verify_logs r = false) := by
  refine ⟨?_, ?_, ?_, ?_, ?_, ?_, ?_⟩
  · intro fetch e h; simp [extract, h]
  · intro src; rfl
  · intro d src e h; simp [transform, h]
  · intro df w e h; simp [load_to_csv, h]
  · intro df c wOk db e h; simp [load_to_db, h]
  · intro c db e h; simp [run_queries, h]
  · intro r e h; simp [verify_logs, h]

/-- C7 witness: one concrete failing run of each stage. -/
theorem stages_signal_failure_not_raise_witness :
    extract (.error "boom") = none ∧
    transform none (.error "boom") = (none, none) ∧
    transform (some []) (.error "boom") = (some [], none) ∧
    load_to_csv (some []) (fun _ => .error "disk full") = false ∧
    load_to_db (some []) false true ⟨none⟩ = (⟨none⟩, false) ∧
    run_queries false ⟨none⟩ = none ∧
    verify_logs (.error "missing") = false :=
  ⟨stages_signal_failure_not_raise.1 (.error "boom") "boom" rfl,
   stages_signal_failure_not_raise.2.1 (.error "boom"),
   stages_signal_failure_not_raise.2.2.1 [] (.error "boom") "boom" rfl,
   stages_signal_failure_not_raise.2.2.2.1 (some []) (fun _ => .error "disk full")
     "disk full" rfl,
   stages_signal_failure_not_raise.2.2.2.2.1 (some []) false true ⟨none⟩
     "unable to open database file" rfl,
   stages_signal_failure_not_raise.2.2.2.2.2.1 false ⟨none⟩
     "unable to open database file" rfl,
   stages_signal_failure_not_raise.2.2.2.2.2.2 (.error "missing") "missing" rfl⟩

/-- C8: the relational sink replaces the `Largest_banks` table wholesale:
after a load the table holds exactly the frame's rows, and loading the
same frame again leaves the store unchanged (idempotence, no append). -/
theorem load_to_db_replaces_table (d : Dataset) (db : DBState) :
    (load_to_db (some d) true true db).1.largestBanks = some d ∧
    (load_to_db (some d) true true db).2 = true ∧
    load_to_db (some d) true true (load_to_db (some d) true true db).1 =
      load_to_db (some d) true true db := by
  simp [load_to_db, loadDbBody]

/-- A persisted row carrying only an EUR market-cap value, as used in
the reporter's concrete scenario. -/
def exEurRow (nm : String) (v : ℚ) : BankRow :=
  { Name := nm, MC_USD_Billion := none, MC_GBP_Billion := none,
    MC_EUR_Billion := some v, MC_INR_Billion := none }

/-- C9: query 1 returns the average, maximum and minimum of
`MC_EUR_Billion` over all rows plus the max/min ratio, each rounded to 2
decimals (`mx`/`mn` really are the column's extrema); over EUR values
[10, 20, 30] it yields Average 20.0, Max 30.0, Min 10.0, Ratio 3.0. -/
theorem query1_reports_rounded_aggregates :
    (∀ rows : Dataset, ∀ mx mn : ℚ,
        (eurColumn rows).max? = some mx → (eurColumn rows).min? = some mn → mn ≠ 0 →
        (mx ∈ eurColumn rows ∧ (∀ x ∈ eurColumn rows, x ≤ mx) ∧
         mn ∈ eurColumn rows ∧ (∀ x ∈ eurColumn rows, mn ≤ x)) ∧
        query1 rows =
          { Average_MC_EUR := some (sqlRound2 ((eurColumn rows).sum / (eurColumn rows).length)),
            Max_MC_EUR := some (sqlRound2 mx),
            Min_MC_EUR := some (sqlRound2 mn),
            Max_to_Min_Ratio := some (sqlRound2 (mx / mn)) })
  ∧ query1 [exEurRow "A" 10, exEurRow "B" 20, exEurRow "C" 30] =
      { Average_MC_EUR := some 20, Max_MC_EUR := some 30, Min_MC_EUR := some 10,
        Max_to_Min_Ratio := some 3 } := by
  constructor
  · intro rows mx mn hmx hmn hmn0
    obtain ⟨hmxmem, hmxub⟩ := qMax_spec _ _ hmx
    obtain ⟨hmnmem, hmnlb⟩ := qMin_spec _ _ hmn
    refine ⟨⟨hmxmem, hmxub, hmnmem, hmnlb⟩, ?_⟩
    have hne : (eurColumn rows).isEmpty = false := by
      cases hcol : eurColumn rows with
      | nil => rw [hcol] at hmxmem; cases hmxmem
      | cons a l => simp
    simp [query1, sqlAvg, sqlMax, sqlMin, sqlDiv, hmx, hmn, hne, hmn0]
  · simp [query1, eurColumn, exEurRow, sqlAvg, sqlMax, sqlMin, sqlDiv,
      List.max?, List.min?, max_def, min_def, sqlRound2]
    norm_num

/-- C9 witness: the general aggregate description instantiated on the
[10, 20, 30] table. -/
theorem query1_reports_rounded_aggregates_witness :
    ((30 : ℚ) ∈ eurColumn [exEurRow "A" 10, exEurRow "B" 20, exEurRow "C" 30] ∧
      (∀ x ∈ eurColumn [exEurRow "A" 10, exEurRow "B" 20, exEurRow "C" 30], x ≤ 30) ∧
      (10 : ℚ) ∈ eurColumn [exEurRow "A" 10, exEurRow "B" 20, exEurRow "C" 30] ∧
      (∀ x ∈ eurColumn [exEurRow "A" 10, exEurRow "B" 20, exEurRow "C" 30], 10 ≤ x)) ∧
    query1 [exEurRow "A" 10, exEurRow "B" 20, exEurRow "C" 30] =
      { Average_MC_EUR :=
          some (sqlRound2 ((eurColumn [exEurRow "A" 10, exEurRow "B" 20, exEurRow "C" 30]).sum /
            (eurColumn [exEurRow "A" 10, exEurRow "B" 20, exEurRow "C" 30]).length)),
        Max_MC_EUR := some (sqlRound2 30),
        Min_MC_EUR := some (sqlRound2 10),
        Max_to_Min_Ratio := some (sqlRound2 (30 / 10)) } :=
  query1_reports_rounded_aggregates.1 [exEurRow "A" 10, exEurRow "B" 20, exEurRow "C" 30]
    30 10
    (by simp [eurColumn, exEurRow, List.max?, max_def]; norm_num)
    (by simp [eurColumn, exEurRow, List.min?, min_def]; norm_num)
    (by norm_num)

/-- C1 (code bug): on a fully successful run, `main` invokes extract,
transform, the relational sink, the reporter and the log verifier — but
never `load_to_csv`.  The CSV sink is defined in the source yet dead:
no run of `main`, successful or not, ever invokes it. -/
theorem main_never_invokes_csv_sink :
    (extract exInputs.fetch).isSome = true ∧
    ((transform (extract exInputs.fetch) exInputs.ratesSrc).2).isSome = true ∧
    mainStages exInputs =
      [Stage.extractStage, Stage.transformStage, Stage.loadDbStage,
       Stage.queriesStage, Stage.verifyStage] ∧
    Stage.loadCsvStage ∉ mainStages exInputs ∧
    ∀ inp : MainInputs, Stage.loadCsvStage ∉ mainStages inp := by
  have hgen : ∀ inp : MainInputs, Stage.loadCsvStage ∉ mainStages inp := by
    intro inp
    unfold mainStages
    cases hx : extract inp.fetch with
    | none => simp [hx]
    | some d =>
        cases htr : (transform (some d) inp.ratesSrc).2 with
        | none => simp [hx, htr]
        | some dt =>
            by_cases hdb :
                (load_to_db (some dt) inp.dbConnOk inp.dbWriteOk inp.db0).2 = true
            · simp [hx, htr, hdb]
            · simp [hx, htr, Bool.eq_false_iff.mpr hdb]
  have h3 : mainStages exInputs =
      [Stage.extractStage, Stage.transformStage, Stage.loadDbStage,
       Stage.queriesStage, Stage.verifyStage] := rfl
  exact ⟨rfl, rfl, h3, hgen exInputs, hgen⟩

end ETLBank
